import Mathlib

/-!
Verification of the conversational developer-tools agent
(`src/workflow.py`, `src/models.py`, `src/prompts.py`).

The decision-execution loop of `AgentWorkflow` is embedded shallowly:

* Pydantic models (`models.py`) become Lean structures.
* The two external collaborators — the OpenAI chat client and the
  FireCrawl search/scrape service — are modelled as an oracle
  environment `Env` of (possibly failing) functions; a Python
  exception raised by an adapter call is an `Except.error`.
* `AgentWorkflow.agent_decision_step` is split into
  `agent_decision_step_core` (the body of the `try:` block, returning
  `Except.error` carrying the state at the moment an exception is
  raised) and `agent_decision_step` (which adds the `except` branch),
  mirroring the `try/except` structure of the source.
* Every step also returns the list of external calls it issued
  (`ExtCall`), so that "no model call is made" is a statement about
  an empty trace.
* `Message.timestamp` (wall-clock `datetime.now()`) and
  `Message.tool_calls` (never written nor read by any code path) are
  not represented.

String-typed fields keep Python semantics: `str.strip` is
`String.trim`, `str.lower` is `String.toLower`, slicing `s[:n]` is
`String.take`, and Python truthiness of a string is non-emptiness.
-/

namespace DevToolsAgent

/-! ### Prompts (`src/prompts.py`, class `DeveloperToolsPrompts`) -/

def AGENT_SYSTEM_PROMPT : String :=
  "You are an expert AI assistant specializing in helping developers find and evaluate tools, libraries, platforms, and technologies.

Your goal: Have a natural conversation to understand the user\x27s needs, then research and recommend appropriate developer tools.

You must decide EXACTLY ONE action per turn by setting the correct decision_type.

=========\x3d=========\x3d======\x3d=========\x3d=========\x3d=====
AVAILABLE ACTIONS (STRICT SCHEMA)
=========\x3d=========\x3d======\x3d=========\x3d=========\x3d=====

1. decision_type = \"respond\"
- Use when: answering questions, explaining things, or giving final recommendations
- Required field:
  - message: string

2. decision_type = \"ask_question\"
- Use when: the user\x27s request is vague or missing constraints
- Required field:
  - message: string (the clarification question)

3. decision_type = \"search_tools\"
- Use when: you need to discover relevant tools
- Required object:
  - search_tools:
      - query: string (REQUIRED)
      - num_results: integer (optional, default = 3)
      - reasoning: string

4. decision_type = \"research_company\"
- Use when: you need deep information about a specific tool
- Required object:
  - research_company:
      - research_company:
      - company_names: List[string] (REQUIRED - can be one or multiple)
      - reasoning: string
- **BATCH RESEARCH: You can research multiple companies in ONE call**
- Example: company_names: [\"PostgreSQL\", \"CockroachDB\", \"SQLite\"]

5. decision_type = \"analyze_companies\"
- Use when: at least 2 tools have been researched and comparison is needed
- Required object:
  - analyze_companies:
      - reasoning: string

6. decision_type = \"end\"
- Use when: the user says goodbye or clearly indicates they are done
- Required object:
  - end:
      - reasoning: string

=========\x3d=========\x3d======\x3d=========\x3d=========\x3d=====
CRITICAL RULES (DO NOT VIOLATE)
=========\x3d=========\x3d======\x3d=========\x3d=========\x3d=====

- Output MUST match the schema exactly
- NEVER output a field that is not defined in the schema
- NEVER use \"call_tool\"
- NEVER use \"tool_name\" or \"arguments\"
- Populate ONLY the object that matches decision_type
- One action per turn, no exceptions

=========\x3d=========\x3d======\x3d=========\x3d=========\x3d=====
DECISION GUIDELINES
=========\x3d=========\x3d======\x3d=========\x3d=========\x3d=====

Ask questions when:
- The request is vague (e.g., \"I need a database\")
- You need constraints like scale, budget, language, or use case

Search tools when:
- The user has provided enough context to find options
- Example: \"I need a free Firebase alternative\"
- You have NOT yet searched for this specific query
- Example: \"I need a free Firebase alternative\"
- ⚠️ ONLY SEARCH ONCE per user query unless the user explicitly asks for more

Research companies when:
- Tools have been found via search_tools
- A specific tool name is mentioned
- You need detailed technical information
- **IMMEDIATELY after search_tools finds tools, move to researching them**
- **BATCH MULTIPLE TOOLS: Research all extracted tools in one call to be efficient**

Analyze companies when:
- You have researched multiple tools
- A recommendation or comparison is expected

Respond when:
- Explaining findings
- Giving final recommendations
- Answering direct questions

End when:
- User says thanks, goodbye, or exit

=========\x3d=========\x3d======\x3d=========\x3d=========\x3d=====
STYLE RULES
=========\x3d=========\x3d======\x3d=========\x3d=========\x3d=====

- Be concise (2-3 sentences unless doing final analysis)
- Be technical but clear
- Reference prior context when relevant
- Do NOT repeat research unnecessarily

You will receive a \"Current Context\" section showing past actions.
Use it to avoid redundant work and maintain continuity.

Now decide the NEXT SINGLE ACTION based on the conversation so far."

def TOOL_EXTRACTION_SYSTEM : String :=
  "You are a tech researcher. Extract specific tool, library, platform, or service names from articles.
Focus on actual products/tools that developers can use, not general concepts or features."

def TOOL_ANALYSIS_SYSTEM : String :=
  "You are analyzing developer tools and programming technologies. 
Focus on extracting information relevant to programmers and software developers. 
Pay special attention to programming languages, frameworks, APIs, SDKs, and development workflows."

def RECOMMENDATIONS_SYSTEM : String :=
  "You are a senior software engineer providing technical recommendations based on researched data."

def tool_extraction_user (query : String) (content : String) : String :=
  "Query: " ++ query ++ "\nArticle Content: " ++ content ++
  "\n\nExtract a list of specific tool/service names mentioned in this content that are relevant to \"" ++
  query ++
  "\".\n\nRules:\n- Only include actual product names, not generic terms\n- Focus on tools developers can directly use/implement\n- Include both open source and commercial options\n- Limit to the 5 most relevant tools\n- Return just the tool names, one per line, no descriptions\n\nExample format:\nSupabase\nPlanetScale\nRailway\nAppwrite\nNhost"

def tool_analysis_user (company_name : String) (content : String) : String :=
  "Company/Tool: " ++ company_name ++ "\nWebsite Content: " ++ content.take 2500 ++
  "\n\nAnalyze this content from a developer\x27s perspective and provide:\n- pricing_model: One of \"Free\", \"Freemium\", \"Paid\", \"Enterprise\", or \"Unknown\"\n- is_open_source: true if open source, false if proprietary, null if unclear\n- tech_stack: List of programming languages, frameworks, databases, APIs, or technologies supported/used\n- description: Brief 1-sentence description focusing on what this tool does for developers\n- api_available: true if REST API, GraphQL, SDK, or programmatic access is mentioned\n- language_support: List of programming languages explicitly supported (e.g., Python, JavaScript, Go, etc.)\n- integration_capabilities: List of tools/platforms it integrates with (e.g., GitHub, VS Code, Docker, AWS, etc.)\n\nFocus on developer-relevant features like APIs, SDKs, language support, integrations, and development workflows."

def recommendations_user (researched_companies : String) (user_context : String) : String :=
  "User\x27s Needs/Context: " ++ user_context ++
  "\n\nResearched Tools Data:\n" ++ researched_companies ++
  "\n\nProvide a clear, structured recommendation covering:\n\n1. **Top Recommendation**: Which tool is best and why (1-2 sentences)\n2. **Key Advantages**: Main technical benefits (2-3 bullet points)\n3. **Pricing Consideration**: Cost implications (1 sentence)\n4. **Alternative**: If budget/requirements differ, mention 1 alternative\n\nKeep it practical and developer-focused. Total length: 150-200 words."

/-! ### Data model (`src/models.py`) -/

/-- Role of a `Message`: `Literal["user", "assistant", "tool"]`. -/
inductive Role where
  | user
  | assistant
  | tool
deriving Repr, DecidableEq

/-- Model of `Message` (timestamp and the never-used `tool_calls` omitted, see header). -/
structure Message where
  role : Role
  content : String
deriving Repr, DecidableEq

/-- Model of `CompanyAnalysis`: structured output of the per-company LLM analysis. -/
structure CompanyAnalysis where
  pricing_model : String
  is_open_source : Option Bool := none
  tech_stack : List String := []
  description : String := ""
  api_available : Option Bool := none
  language_support : List String := []
  integration_capabilities : List String := []
deriving Repr, DecidableEq

/-- Model of `CompanyInfo`. -/
structure CompanyInfo where
  name : String
  description : String
  website : String
  pricing_model : Option String := none
  is_open_source : Option Bool := none
  tech_stack : List String := []
  competitors : List String := []
  api_available : Option Bool := none
  language_support : List String := []
  integration_capabilities : List String := []
  developer_experience_rating : Option String := none
deriving Repr, DecidableEq

/-- Model of `SearchToolsCall`. -/
structure SearchToolsCall where
  query : String
  num_results : Int := 3
  reasoning : String
deriving Repr, DecidableEq

/-- Model of `ResearchCompanyCall`. -/
structure ResearchCompanyCall where
  company_names : List String
  reasoning : String
deriving Repr, DecidableEq

/-- Model of `AnalyzeCompaniesCall`. -/
structure AnalyzeCompaniesCall where
  reasoning : String
deriving Repr, DecidableEq

/-- Model of `EndConversationCall`. -/
structure EndConversationCall where
  reasoning : String
deriving Repr, DecidableEq

/-- Model of `AgentDecision`; `decision_type` is kept as a string so that the
source's defensive `raise ValueError(f"Unknown decision_type: ...")`
branch stays representable; pydantic restricts it to the six literals,
but the dispatch code does not rely on that. -/
structure AgentDecision where
  decision_type : String
  message : Option String := none
  search_tools : Option SearchToolsCall := none
  research_company : Option ResearchCompanyCall := none
  analyze_companies : Option AnalyzeCompaniesCall := none
  «end» : Option EndConversationCall := none
deriving Repr, DecidableEq

/-- Model of `AgentState`. -/
structure AgentState where
  conversation_history : List Message := []
  current_query : Option String := none
  extracted_tools : List String := []
  researched_companies : List CompanyInfo := []
  pending_action : Option String := none
  awaiting_user_input : Bool := true
  analysis : Option String := none
  conversation_complete : Bool := false
deriving Repr, DecidableEq

/-! ### External collaborators (OpenAI client, FireCrawl) as oracles -/

/-- One entry of the OpenAI `messages` list: `{"role": ..., "content": ...}`. -/
structure ChatMessage where
  role : String
  content : String
deriving Repr, DecidableEq

/-- A FireCrawl search result's optional `metadata` object. -/
structure SearchMetadata where
  url : Option String := none
deriving Repr, DecidableEq

/-- One FireCrawl search result: a URL directly on the object and/or
nested under `metadata` (the source probes both with `getattr`). -/
structure SearchResult where
  url : Option String := none
  metadata : Option SearchMetadata := none
deriving Repr, DecidableEq

/-- A FireCrawl search response with its optional `web` result list. -/
structure SearchResponse where
  web : Option (List SearchResult) := none
deriving Repr, DecidableEq

/-- A FireCrawl scrape response with its optional `markdown` body. -/
structure ScrapeResult where
  markdown : Option String := none
deriving Repr, DecidableEq

/-- One call issued to an external collaborator during a step. -/
inductive ExtCall where
  | searchCompanies (query : String) (num_results : Int)
  | scrapePage (url : String)
  | llmDecision (messages : List ChatMessage)
  | llmStructuredAnalysis (messages : List ChatMessage)
  | llmText (messages : List ChatMessage)
deriving Repr, DecidableEq

/-- Oracle environment for one decision step.  Each function models one
adapter entry point; `Except.error ()` models the call raising a Python
exception.  `search_companies` returning `Except.ok none` models the
adapter returning a falsy (`None`) response object. -/
structure Env where
  /-- Oracle for `client.chat.completions.create` with the `AgentDecision` schema,
  composed with `json.loads` and pydantic validation
  (`workflow.py:83-96`). -/
  decide : List ChatMessage → Except Unit AgentDecision
  /-- plain-text `client.chat.completions.create`
  (`workflow.py:300-305` and `workflow.py:448-455`). -/
  chatText : List ChatMessage → Except Unit String
  /-- Oracle for `client.chat.completions.create` with the `CompanyAnalysis`
  schema, composed with `json.loads` and validation
  (`workflow.py:393-406`). -/
  chatAnalysis : List ChatMessage → Except Unit CompanyAnalysis
  /-- Oracle for `firecrawl.search_companies`. -/
  search_companies : String → Int → Except Unit (Option SearchResponse)
  /-- Oracle for `firecrawl.scrape_company_pages`. -/
  scrape_company_pages : String → Except Unit (Option ScrapeResult)

/-- Python truthiness of an optional string (`None` and `""` are falsy). -/
def truthyStr : Option String → Option String
  | none => none
  | some s => if s.isEmpty then none else some s

/-- URL resolution for one search result (`workflow.py:281-283` /
`workflow.py:345-347`): take `result.url`; if falsy and `metadata`
exists, fall back to `metadata.url`; the caller then tests truthiness. -/
def resolved_url (r : SearchResult) : Option String :=
  let url := r.url
  let url := if (truthyStr url).isNone then
      match r.metadata with
      | some m => m.url
      | none => url
    else url
  truthyStr url

/-- Truthiness test `if scraped and getattr(scraped, "markdown", None):` — the scrape
response must be truthy and carry a truthy `markdown` body. -/
def scraped_markdown : Option ScrapeResult → Option String
  | none => none
  | some sc => truthyStr sc.markdown

/-! ### JSON serialization of researched companies
(`company.json()` in `_tool_analyze_companies`, pydantic v1 style;
escaping of special characters inside field values is not modelled —
no verified property inspects this string). -/

def jsonStr (s : String) : String := "\"" ++ s ++ "\""

def jsonOptStr : Option String → String
  | none => "null"
  | some s => jsonStr s

def jsonOptBool : Option Bool → String
  | none => "null"
  | some true => "true"
  | some false => "false"

def jsonStrList (l : List String) : String :=
  "[" ++ String.intercalate ", " (l.map jsonStr) ++ "]"

def CompanyInfo.json (c : CompanyInfo) : String :=
  "\x7b\"name\": " ++ jsonStr c.name ++
  ", \"description\": " ++ jsonStr c.description ++
  ", \"website\": " ++ jsonStr c.website ++
  ", \"pricing_model\": " ++ jsonOptStr c.pricing_model ++
  ", \"is_open_source\": " ++ jsonOptBool c.is_open_source ++
  ", \"tech_stack\": " ++ jsonStrList c.tech_stack ++
  ", \"competitors\": " ++ jsonStrList c.competitors ++
  ", \"api_available\": " ++ jsonOptBool c.api_available ++
  ", \"language_support\": " ++ jsonStrList c.language_support ++
  ", \"integration_capabilities\": " ++ jsonStrList c.integration_capabilities ++
  ", \"developer_experience_rating\": " ++ jsonOptStr c.developer_experience_rating ++
  "\x7d"

/-! ### Message building (`_build_llm_messages`, `_build_context_summary`) -/

/-- Embeds `AgentWorkflow._build_context_summary` (`workflow.py:238-255`).
Python truthiness: `if state.extracted_tools:` is non-emptiness of the
list, `if state.analysis:` is a non-`None`, non-empty string. -/
def build_context_summary (state : AgentState) : String :=
  let summary : List String := []
  let summary := if ¬ state.extracted_tools.isEmpty then
      summary ++ ["Extracted Tools: " ++ String.intercalate ", " (state.extracted_tools.take 5) ++
        " \n→ Next step: Research these tools using \x27research_company\x27"]
    else summary
  let summary := if ¬ state.researched_companies.isEmpty then
      summary ++ ["Researched Companies: " ++
        String.intercalate ", " (state.researched_companies.map (·.name)) ++
        " \n→ Next step: " ++
        (if state.researched_companies.length ≥ 2 then "Analyze if enough data"
         else "Research more companies")]
    else summary
  let summary := if (truthyStr state.analysis).isSome then
      summary ++ ["Analysis Complete: Yes"]
    else summary
  if summary.isEmpty then "No previous actions taken"
  else String.intercalate "\n" summary

/-- Embeds `AgentWorkflow._build_llm_messages` (`workflow.py:215-236`): the
fixed system prompt, then the conversation history converted in a loop
(tool turns become system-level "[Tool Result] ..." notes), then one
"Current Context" system message. -/
def build_llm_messages (state : AgentState) : List ChatMessage :=
  let messages : List ChatMessage :=
    [{ role := "system", content := AGENT_SYSTEM_PROMPT }]
  let messages := state.conversation_history.foldl
    (fun acc msg =>
      match msg.role with
      | Role.user => acc ++ [{ role := "user", content := msg.content }]
      | Role.assistant => acc ++ [{ role := "assistant", content := msg.content }]
      | Role.tool => acc ++ [{ role := "system", content := "[Tool Result] " ++ msg.content }])
    messages
  messages ++ [{ role := "system", content := "Current Context:\n" ++ build_context_summary state }]

/-! ### Tools (`_tool_search_tools`, `_tool_research_company`,
`_analyze_company_content`, `_tool_analyze_companies`) -/

/-- The messages of the tool-extraction completion
(`workflow.py:292-295`). -/
def extraction_messages (query : String) (content : String) : List ChatMessage :=
  [{ role := "system", content := TOOL_EXTRACTION_SYSTEM },
   { role := "user", content := tool_extraction_user query content }]

/-- The `for result in search_results.web or []` loop of
`_tool_search_tools` (`workflow.py:278-289`): for every result with a
truthy URL, scrape it and append the first 1500 characters of a truthy
markdown body plus a blank line. -/
def collect_content (env : Env) : List SearchResult → String → Except Unit String × List ExtCall
  | [], all_content => (.ok all_content, [])
  | result :: rest, all_content =>
    match resolved_url result with
    | none => collect_content env rest all_content
    | some url =>
      match env.scrape_company_pages url with
      | .error _ => (.error (), [.scrapePage url])
      | .ok scraped =>
        let all_content := match scraped_markdown scraped with
          | some md => all_content ++ md.take 1500 ++ "\n\n"
          | none => all_content
        match collect_content env rest all_content with
        | (res, tr) => (res, ExtCall.scrapePage url :: tr)

/-- The augmented query of `_tool_search_tools` (`workflow.py:268`):
`article_query = f"{query} tools comparision best alternatives"` —
sic, the source misspells "comparison" while its own comment one line
above spells it correctly. -/
def article_query (query : String) : String :=
  query ++ " tools comparision best alternatives"

/-- Embeds `AgentWorkflow._tool_search_tools` (`workflow.py:261-322`).  The
search and scrape calls sit outside the `try:` around the extraction
completion, so their exceptions propagate (`Except.error`); an
extraction failure is caught and yields `[]`. -/
def tool_search_tools (env : Env) (query : String) (num_results : Int) :
    Except Unit (List String) × List ExtCall :=
  match env.search_companies (article_query query) num_results with
  | .error _ => (.error (), [.searchCompanies (article_query query) num_results])
  | .ok none =>
    -- a falsy response object: `search_results.web` raises AttributeError
    (.error (), [.searchCompanies (article_query query) num_results])
  | .ok (some resp) =>
    match collect_content env (resp.web.getD []) "" with
    | (.error _, tr) =>
      (.error (), ExtCall.searchCompanies (article_query query) num_results :: tr)
    | (.ok all_content, tr) =>
      match env.chatText (extraction_messages query all_content) with
      | .error _ =>
        (.ok [],
         (ExtCall.searchCompanies (article_query query) num_results :: tr) ++
           [ExtCall.llmText (extraction_messages query all_content)])
      | .ok response_content =>
        (.ok (((((response_content.trim.splitOn "\n").map String.trim).filter
                (fun n => ¬ n.isEmpty))).take 5),
         (ExtCall.searchCompanies (article_query query) num_results :: tr) ++
           [ExtCall.llmText (extraction_messages query all_content)])

/-- Embeds `AgentWorkflow._analyze_company_content` (`workflow.py:383-424`):
the completion, parse and validation all sit inside `try:`; any failure
is caught and replaced by the default analysis. -/
def analyze_company_content (env : Env) (company_name : String) (content : String) :
    CompanyAnalysis × List ExtCall :=
  let msgs := [{ role := "system", content := TOOL_ANALYSIS_SYSTEM },
               { role := "user", content := tool_analysis_user company_name content }]
  match env.chatAnalysis msgs with
  | .ok analysis => (analysis, [.llmStructuredAnalysis msgs])
  | .error _ =>
    ({ pricing_model := "Unknown", is_open_source := none, tech_stack := [],
       description := "Analysis failed", api_available := none,
       language_support := [], integration_capabilities := [] },
     [.llmStructuredAnalysis msgs])

/-- Embeds `AgentWorkflow._tool_research_company` (`workflow.py:324-381`).
`Except.ok none` is the "no result / no URL" skip; firecrawl
exceptions propagate. -/
def tool_research_company (env : Env) (company_name : String) :
    Except Unit (Option CompanyInfo) × List ExtCall :=
  let q := company_name ++ " official site"
  match env.search_companies q 1 with
  | .error _ => (.error (), [.searchCompanies q 1])
  | .ok resp =>
    match resp with
    | none => (.ok none, [.searchCompanies q 1])
    | some r =>
      match r.web with
      | none => (.ok none, [.searchCompanies q 1])
      | some [] => (.ok none, [.searchCompanies q 1])
      | some (result :: _) =>
        match resolved_url result with
        | none => (.ok none, [.searchCompanies q 1])
        | some url =>
          let company : CompanyInfo :=
            { name := company_name, description := "", website := url,
              tech_stack := [], competitors := [] }
          match env.scrape_company_pages url with
          | .error _ => (.error (), [.searchCompanies q 1, .scrapePage url])
          | .ok scraped =>
            match scraped_markdown scraped with
            | none => (.ok (some company), [.searchCompanies q 1, .scrapePage url])
            | some content =>
              match analyze_company_content env company_name content with
              | (analysis, tr2) =>
                (.ok (some { company with
                    pricing_model := some analysis.pricing_model,
                    is_open_source := analysis.is_open_source,
                    tech_stack := analysis.tech_stack,
                    description := analysis.description,
                    api_available := analysis.api_available,
                    language_support := analysis.language_support,
                    integration_capabilities := analysis.integration_capabilities }),
                 [ExtCall.searchCompanies q 1, ExtCall.scrapePage url] ++ tr2)

/-- Embeds `AgentWorkflow._tool_analyze_companies` (`workflow.py:426-455`).
With no researched companies it returns the sentinel before any
external call; otherwise the (unguarded) completion may raise.  The
source passes `state.current_query` as the first positional argument
of `recommendations_user` and the serialized company data as the
second, so the two ride under swapped prompt headings. -/
def tool_analyze_companies (env : Env) (state : AgentState) :
    Except Unit String × List ExtCall :=
  if state.researched_companies.isEmpty then
    (.ok "No companies researched yet.", [])
  else
    let company_data :=
      String.intercalate ", " (state.researched_companies.map CompanyInfo.json)
    let msgs := [{ role := "system", content := RECOMMENDATIONS_SYSTEM },
                 { role := "user", content :=
                     recommendations_user (state.current_query.getD "None") company_data }]
    match env.chatText msgs with
    | .error _ => (.error (), [.llmText msgs])
    | .ok out => (.ok out, [.llmText msgs])

/-! ### The decision step (`agent_decision_step`, `workflow.py:78-209`) -/

/-- The `for company_name in company_names:` loop of the
research-company branch (`workflow.py:146-152`).  `state` is mutated in
place in the source, so an exception mid-batch keeps the records
appended so far: the error value carries the state at the raise
point. -/
def research_loop (env : Env) (names : List String) (state : AgentState) (researched_count : Nat) :
    Except AgentState (AgentState × Nat) × List ExtCall :=
  match names with
  | [] => (.ok (state, researched_count), [])
  | company_name :: rest =>
    match tool_research_company env company_name with
    | (.error _, tr) => (.error state, tr)
    | (.ok none, tr) =>
      match research_loop env rest state researched_count with
      | (r, tr2) => (r, tr ++ tr2)
    | (.ok (some company), tr) =>
      match research_loop env rest
          { state with researched_companies := state.researched_companies ++ [company] }
          (researched_count + 1) with
      | (r, tr2) => (r, tr ++ tr2)

/-- The dispatch on `decision.decision_type` (`workflow.py:98-196`),
still inside the `try:` — `Except.error` carries the state at the
moment an exception (a failed `assert`, a propagating tool exception,
or the final `raise ValueError`) is raised. -/
def dispatch_decision (env : Env) (decision : AgentDecision) (state : AgentState) :
    Except AgentState AgentState × List ExtCall :=
  if decision.decision_type = "respond" ∨ decision.decision_type = "ask_question" then
    match decision.message with
    | none => (.error state, [])
    | some m =>
      (.ok { state with
          conversation_history := state.conversation_history ++
            [{ role := Role.assistant, content := m }],
          awaiting_user_input := true }, [])
  else if decision.decision_type = "search_tools" then
    match decision.search_tools with
    | none => (.error state, [])
    | some args =>
      match tool_search_tools env args.query args.num_results with
      | (.error _, tr) => (.error state, tr)
      | (.ok tools, tr) =>
        (.ok { state with
            extracted_tools := state.extracted_tools ++ tools,
            conversation_history := state.conversation_history ++
              [{ role := Role.tool,
                 content := "Found tools: " ++ String.intercalate ", " tools }] }, tr)
  else if decision.decision_type = "research_company" then
    match decision.research_company with
    | none => (.error state, [])
    | some args =>
      match research_loop env args.company_names state 0 with
      | (.error p, tr) => (.error p, tr)
      | (.ok (s1, researched_count), tr) =>
        (.ok { s1 with
            conversation_history := s1.conversation_history ++
              [{ role := Role.tool,
                 content := "Researched " ++ toString researched_count ++ "/" ++
                   toString args.company_names.length ++ " companies: " ++
                   String.intercalate ", " args.company_names }] }, tr)
  else if decision.decision_type = "analyze_companies" then
    match decision.analyze_companies with
    | none => (.error state, [])
    | some _ =>
      match tool_analyze_companies env state with
      | (.error _, tr) => (.error state, tr)
      | (.ok analysis, tr) =>
        (.ok { state with
            analysis := some analysis,
            conversation_history := state.conversation_history ++
              [{ role := Role.tool, content := "Analysis complete" },
               { role := Role.assistant, content := analysis }],
            awaiting_user_input := true }, tr)
  else if decision.decision_type = "end" then
    match decision.«end» with
    | none => (.error state, [])
    | some _ => (.ok { state with conversation_complete := true }, [])
  else
    (.error state, [])

/-- The body of the `try:` block of `agent_decision_step`
(`workflow.py:79-196`): build the messages, obtain the structured
decision, dispatch. -/
def agent_decision_step_core (env : Env) (state : AgentState) :
    Except AgentState AgentState × List ExtCall :=
  let messages := build_llm_messages state
  match env.decide messages with
  | .error _ => (.error state, [.llmDecision messages])
  | .ok decision =>
    match dispatch_decision env decision state with
    | (r, tr) => (r, ExtCall.llmDecision messages :: tr)

/-- The `except Exception` branch (`workflow.py:198-207`): append one
apology assistant turn to the state at the raise point and hand
control back to the user. -/
def err_apply (state : AgentState) : AgentState :=
  { state with
    conversation_history := state.conversation_history ++
      [{ role := Role.assistant, content := "I hit an internal error. Please rephrase." }],
    awaiting_user_input := true }

/-- Embeds `AgentWorkflow.agent_decision_step` (`workflow.py:78-209`):
`try:` body plus `except` branch.  Total — no exception escapes. -/
def agent_decision_step (env : Env) (state : AgentState) : AgentState × List ExtCall :=
  match agent_decision_step_core env state with
  | (.ok s, tr) => (s, tr)
  | (.error p, tr) => (err_apply p, tr)

/-! ### The conversation loop (`run_conversation`, `workflow.py:35-72`) -/

def exit_words : List String := ["exit", "quit", "bye"]

/-- The `while not state.conversation_complete:` loop of
`run_conversation`.  `env_seq` supplies the oracle environment for each
successive decision step (its length is the fuel; the Python loop may
run unboundedly), `inputs` the successive console lines read by
`input("👤 You: ")`. -/
def run_conversation_aux (env_seq : List Env) (inputs : List String) (state : AgentState) :
    AgentState × List ExtCall :=
  match env_seq with
  | [] => (state, [])
  | env :: envs =>
    if state.conversation_complete then (state, [])
    else
      match agent_decision_step env state with
      | (s1, tr) =>
        if s1.awaiting_user_input ∧ ¬ s1.conversation_complete then
          match inputs with
          | [] => (s1, tr)
          | raw :: rest =>
            let user_input := raw.trim
            if exit_words.contains user_input.toLower then
              ({ s1 with conversation_complete := true }, tr)
            else
              match run_conversation_aux envs rest
                  { s1 with
                    conversation_history := s1.conversation_history ++
                      [{ role := Role.user, content := user_input }],
                    awaiting_user_input := false } with
              | (s3, tr2) => (s3, tr ++ tr2)
        else
          match run_conversation_aux envs inputs s1 with
          | (s3, tr2) => (s3, tr ++ tr2)

/-- The state built at the top of `run_conversation`
(`workflow.py:36-46`). -/
def initial_state (initial_message : String) : AgentState :=
  { conversation_history := [{ role := Role.user, content := initial_message }],
    current_query := some initial_message,
    awaiting_user_input := false }

/-- Embeds `AgentWorkflow.run_conversation` (`workflow.py:35-72`). -/
def run_conversation (env_seq : List Env) (inputs : List String) (initial_message : String) :
    AgentState × List ExtCall :=
  run_conversation_aux env_seq inputs (initial_state initial_message)

/-! ### Supporting lemmas about the step function -/

/-- Control fields that the research loop never touches. -/
def same_ctrl (a b : AgentState) : Prop :=
  a.conversation_history = b.conversation_history ∧
  a.awaiting_user_input = b.awaiting_user_input ∧
  a.conversation_complete = b.conversation_complete ∧
  a.analysis = b.analysis ∧
  a.extracted_tools = b.extracted_tools

theorem same_ctrl_refl (a : AgentState) : same_ctrl a a :=
  ⟨rfl, rfl, rfl, rfl, Eq.refl _⟩

theorem pair_ok_ne_err {ε α β : Type} {e : ε} {a : α} {x y : β} {C : Prop}
    (h : ((Except.ok a : Except ε α), x) = (Except.error e, y)) : C :=
  Except.noConfusion (congrArg Prod.fst h)

theorem pair_err_ne_ok {ε α β : Type} {e : ε} {a : α} {x y : β} {C : Prop}
    (h : ((Except.error e : Except ε α), x) = (Except.ok a, y)) : C :=
  Except.noConfusion (congrArg Prod.fst h)

theorem research_loop_ok_ctrl {env : Env} :
    ∀ {names : List String} {s : AgentState} {c : Nat} {s' : AgentState} {c' : Nat}
      {tr : List ExtCall},
      research_loop env names s c = (.ok (s', c'), tr) → same_ctrl s' s := by
  intro nms
  induction nms with
  | nil =>
    intro s c s' c' tr h
    injection h with hfst hsnd
    injection hfst with hpair
    injection hpair with hss hcc
    subst hss
    exact same_ctrl_refl s
  | cons n rest ih =>
    intro s c s' c' tr h
    unfold research_loop at h
    split at h
    · exact pair_err_ne_ok h
    · split at h
      rw [Prod.mk.injEq] at h
      obtain ⟨hfs, -⟩ := h
      next heq => exact ih (by rw [heq, hfs])
    · split at h
      rw [Prod.mk.injEq] at h
      obtain ⟨hfs, -⟩ := h
      next heq =>
      have := ih (by rw [heq, hfs])
      obtain ⟨qa, qb, qc, qd, qe⟩ := this
      exact ⟨qa, qb, qc, qd, qe⟩

theorem research_loop_err_ctrl {env : Env} :
    ∀ {names : List String} {s : AgentState} {c : Nat} {p : AgentState}
      {tr : List ExtCall},
      research_loop env names s c = (.error p, tr) → same_ctrl p s := by
  intro nms
  induction nms with
  | nil =>
    intro s c p tr h
    simp [research_loop] at h
  | cons n rest ih =>
    intro s c p tr h
    unfold research_loop at h
    split at h
    · rw [Prod.mk.injEq] at h
      rw [Except.error.injEq] at h
      obtain ⟨hfs, -⟩ := h
      subst hfs
      exact same_ctrl_refl s
    · split at h
      rw [Prod.mk.injEq] at h
      obtain ⟨hfs, -⟩ := h
      next heq => exact ih (by rw [heq, hfs])
    · split at h
      rw [Prod.mk.injEq] at h
      obtain ⟨hfs, -⟩ := h
      next heq =>
      have := ih (by rw [heq, hfs])
      obtain ⟨qa, qb, qc, qd, qe⟩ := this
      exact ⟨qa, qb, qc, qd, qe⟩

theorem dispatch_err_ctrl {env : Env} {d : AgentDecision} {s p : AgentState}
    {tr : List ExtCall}
    (h : dispatch_decision env d s = (.error p, tr)) : same_ctrl p s := by
  unfold dispatch_decision at h
  split at h
  · split at h
    · rw [Prod.mk.injEq] at h
      rw [Except.error.injEq] at h
      obtain ⟨hfs, -⟩ := h
      subst hfs; exact same_ctrl_refl s
    · exact pair_ok_ne_err h
  split at h
  · split at h
    · rw [Prod.mk.injEq] at h
      rw [Except.error.injEq] at h
      obtain ⟨hfs, -⟩ := h
      subst hfs; exact same_ctrl_refl s
    · split at h
      · rw [Prod.mk.injEq] at h
        rw [Except.error.injEq] at h
        obtain ⟨hfs, -⟩ := h
        subst hfs; exact same_ctrl_refl s
      · exact pair_ok_ne_err h
  split at h
  · split at h
    · rw [Prod.mk.injEq] at h
      rw [Except.error.injEq] at h
      obtain ⟨hfs, -⟩ := h
      subst hfs; exact same_ctrl_refl s
    · split at h
      · rw [Prod.mk.injEq] at h
        rw [Except.error.injEq] at h
        obtain ⟨hfs, -⟩ := h
        next heq =>
        subst hfs
        exact research_loop_err_ctrl heq
      · exact pair_ok_ne_err h
  split at h
  · split at h
    · rw [Prod.mk.injEq] at h
      rw [Except.error.injEq] at h
      obtain ⟨hfs, -⟩ := h
      subst hfs; exact same_ctrl_refl s
    · split at h
      · rw [Prod.mk.injEq] at h
        rw [Except.error.injEq] at h
        obtain ⟨hfs, -⟩ := h
        subst hfs; exact same_ctrl_refl s
      · exact pair_ok_ne_err h
  split at h
  · split at h
    · rw [Prod.mk.injEq] at h
      rw [Except.error.injEq] at h
      obtain ⟨hfs, -⟩ := h
      subst hfs; exact same_ctrl_refl s
    · exact pair_ok_ne_err h
  · rw [Prod.mk.injEq] at h
    rw [Except.error.injEq] at h
    obtain ⟨hfs, -⟩ := h
    subst hfs; exact same_ctrl_refl s

theorem dispatch_ok_complete {env : Env} {d : AgentDecision} {s s' : AgentState}
    {tr : List ExtCall}
    (h : dispatch_decision env d s = (.ok s', tr)) :
    s'.conversation_complete =
      (if d.decision_type = "end" then true else s.conversation_complete) := by
  unfold dispatch_decision at h
  split at h
  next hty =>
    split at h
    · exact pair_err_ne_ok h
    · rw [Prod.mk.injEq] at h
      rw [Except.ok.injEq] at h
      obtain ⟨hfs, -⟩ := h
      subst hfs
      rcases hty with hty | hty <;> rw [hty] <;> simp
  split at h
  next hty =>
    split at h
    · exact pair_err_ne_ok h
    · split at h
      · exact pair_err_ne_ok h
      · rw [Prod.mk.injEq] at h
        rw [Except.ok.injEq] at h
        obtain ⟨hfs, -⟩ := h
        subst hfs
        rw [hty]; simp
  split at h
  next hty =>
    split at h
    · exact pair_err_ne_ok h
    · split at h
      · exact pair_err_ne_ok h
      · rw [Prod.mk.injEq] at h
        rw [Except.ok.injEq] at h
        obtain ⟨hfs, -⟩ := h
        next heq =>
        subst hfs
        have hc := (research_loop_ok_ctrl heq).2.2.1
        rw [hty]; simpa using hc
  split at h
  next hty =>
    split at h
    · exact pair_err_ne_ok h
    · split at h
      · exact pair_err_ne_ok h
      · rw [Prod.mk.injEq] at h
        rw [Except.ok.injEq] at h
        obtain ⟨hfs, -⟩ := h
        subst hfs
        rw [hty]; simp
  split at h
  next hty =>
    split at h
    · exact pair_err_ne_ok h
    · rw [Prod.mk.injEq] at h
      rw [Except.ok.injEq] at h
      obtain ⟨hfs, -⟩ := h
      subst hfs
      rw [hty]; simp
  · exact pair_err_ne_ok h

theorem dispatch_ok_awaiting {env : Env} {d : AgentDecision} {s s' : AgentState}
    {tr : List ExtCall}
    (h : dispatch_decision env d s = (.ok s', tr)) :
    s'.awaiting_user_input =
      (if d.decision_type = "respond" ∨ d.decision_type = "ask_question" ∨
          d.decision_type = "analyze_companies"
       then true else s.awaiting_user_input) := by
  unfold dispatch_decision at h
  split at h
  next hty =>
    split at h
    · exact pair_err_ne_ok h
    · rw [Prod.mk.injEq] at h
      rw [Except.ok.injEq] at h
      obtain ⟨hfs, -⟩ := h
      subst hfs
      rcases hty with hty | hty <;> rw [hty] <;> simp
  split at h
  next hty =>
    split at h
    · exact pair_err_ne_ok h
    · split at h
      · exact pair_err_ne_ok h
      · rw [Prod.mk.injEq] at h
        rw [Except.ok.injEq] at h
        obtain ⟨hfs, -⟩ := h
        subst hfs
        rw [hty]; simp
  split at h
  next hty =>
    split at h
    · exact pair_err_ne_ok h
    · split at h
      · exact pair_err_ne_ok h
      · rw [Prod.mk.injEq] at h
        rw [Except.ok.injEq] at h
        obtain ⟨hfs, -⟩ := h
        next heq =>
        subst hfs
        have ha := (research_loop_ok_ctrl heq).2.1
        rw [hty]; simpa using ha
  split at h
  next hty =>
    split at h
    · exact pair_err_ne_ok h
    · split at h
      · exact pair_err_ne_ok h
      · rw [Prod.mk.injEq] at h
        rw [Except.ok.injEq] at h
        obtain ⟨hfs, -⟩ := h
        subst hfs
        rw [hty]; simp
  split at h
  next hty =>
    split at h
    · exact pair_err_ne_ok h
    · rw [Prod.mk.injEq] at h
      rw [Except.ok.injEq] at h
      obtain ⟨hfs, -⟩ := h
      subst hfs
      rw [hty]; simp
  · exact pair_err_ne_ok h

theorem core_err_ctrl {env : Env} {s p : AgentState} {tr : List ExtCall}
    (h : agent_decision_step_core env s = (.error p, tr)) : same_ctrl p s := by
  simp only [agent_decision_step_core] at h
  split at h
  · rw [Prod.mk.injEq] at h
    rw [Except.error.injEq] at h
    obtain ⟨hfs, -⟩ := h
    subst hfs; exact same_ctrl_refl s
  · next x d heq =>
    rw [Prod.mk.injEq] at h
    obtain ⟨hfs, -⟩ := h
    have hd2 : dispatch_decision env d s = (.error p, (dispatch_decision env d s).2) := by
      rw [← hfs]
    exact dispatch_err_ctrl hd2

theorem core_ok_complete {env : Env} {s s' : AgentState} {tr : List ExtCall}
    (h : agent_decision_step_core env s = (.ok s', tr))
    (hc : s.conversation_complete = true) : s'.conversation_complete = true := by
  simp only [agent_decision_step_core] at h
  split at h
  · exact pair_err_ne_ok h
  · next x d heq =>
    rw [Prod.mk.injEq] at h
    obtain ⟨hfs, -⟩ := h
    have hd : dispatch_decision env d s = (.ok s', (dispatch_decision env d s).2) := by
      rw [← hfs]
    rw [dispatch_ok_complete hd, hc]
    split <;> rfl

/-! ### Concrete oracle environments (used by witnesses) -/

/-- An environment in which every external call raises. -/
def envFail : Env :=
  { decide := fun _ => .error (),
    chatText := fun _ => .error (),
    chatAnalysis := fun _ => .error (),
    search_companies := fun _ _ => .error (),
    scrape_company_pages := fun _ => .error () }

/-- A finished conversation state. -/
def doneState : AgentState := { conversation_complete := true }

/-! ### Claims -/

/-- C1: for every conversation run, `conversation_complete` is
monotonic — no decision step ever resets it from true to false — and
once it is true the conversation loop executes no further decision
step: `run_conversation_aux` returns at once with no state change and
an empty external-call trace, so no handler runs and no model call is
made after completion. -/
theorem C1_complete_monotonic (env : Env) (s : AgentState)
    (h : s.conversation_complete = true) :
    (agent_decision_step env s).1.conversation_complete = true ∧
    (∀ (env_seq : List Env) (inputs : List String),
      run_conversation_aux env_seq inputs s = (s, [])) := by
  constructor
  · unfold agent_decision_step
    cases hcore : agent_decision_step_core env s with
    | mk r tr =>
      cases r with
      | error p =>
        have hp := (core_err_ctrl hcore).2.2.1
        simpa [err_apply, hp] using h
      | ok s' => simpa using core_ok_complete hcore h
  · intro env_seq inputs
    cases env_seq with
    | nil => rfl
    | cons e es => simp [run_conversation_aux, h]

/-- C1 witness: a completed state is left untouched by the loop, and a
decision step applied to it cannot clear the flag. -/
theorem C1_complete_monotonic_witness :
    (agent_decision_step envFail doneState).1.conversation_complete = true ∧
    run_conversation_aux [envFail] ["hello"] doneState = (doneState, []) := by
  have h := C1_complete_monotonic envFail doneState rfl
  exact ⟨h.1, h.2 [envFail] ["hello"]⟩

/-- C2: whenever the body of the decision step raises — decision
parsing, a failed payload `assert`, or a handler body
(`agent_decision_step_core` returns `Except.error` carrying the state
`p` at the raise point) — the step boundary catches it: the result is
exactly `err_apply p`, i.e. the conversation state at the raise point
with a single generic apology/retry assistant turn appended,
`awaiting_user_input` set true, the raw conversation history of the
entry state preserved, and the conversation not terminated.  No
exception escapes: `agent_decision_step` is total by construction. -/
theorem C2_step_boundary_catches (env : Env) (s p : AgentState) (tr : List ExtCall)
    (h : agent_decision_step_core env s = (.error p, tr)) :
    agent_decision_step env s = (err_apply p, tr) ∧
    (agent_decision_step env s).1.conversation_history =
      s.conversation_history ++
        [{ role := Role.assistant, content := "I hit an internal error. Please rephrase." }] ∧
    (agent_decision_step env s).1.awaiting_user_input = true ∧
    (agent_decision_step env s).1.conversation_complete = s.conversation_complete := by
  have hctrl := core_err_ctrl h
  have hstep : agent_decision_step env s = (err_apply p, tr) := by
    unfold agent_decision_step
    rw [h]
  exact ⟨hstep,
    by rw [hstep]; simp [err_apply, hctrl.1],
    by rw [hstep]; simp [err_apply],
    by rw [hstep]; simpa [err_apply] using hctrl.2.2.1⟩

/-- C2 witness: with a decision call that raises, the step applied to
the fresh conversation state is caught at the boundary. -/
theorem C2_step_boundary_catches_witness :
    agent_decision_step envFail (initial_state "hi") =
      (err_apply (initial_state "hi"),
       [ExtCall.llmDecision (build_llm_messages (initial_state "hi"))]) ∧
    (agent_decision_step envFail (initial_state "hi")).1.awaiting_user_input = true := by
  have h := C2_step_boundary_catches envFail (initial_state "hi") (initial_state "hi")
    [ExtCall.llmDecision (build_llm_messages (initial_state "hi"))] rfl
  exact ⟨h.1, h.2.2.1⟩

theorem step_of_core_ok {env : Env} {s s' : AgentState} {tr : List ExtCall}
    (h : agent_decision_step_core env s = (.ok s', tr)) :
    agent_decision_step env s = (s', tr) := by
  unfold agent_decision_step
  rw [h]

theorem step_of_core_err {env : Env} {s p : AgentState} {tr : List ExtCall}
    (h : agent_decision_step_core env s = (.error p, tr)) :
    agent_decision_step env s = (err_apply p, tr) := by
  unfold agent_decision_step
  rw [h]

theorem core_ok_dispatch {env : Env} {s s' : AgentState} {tr : List ExtCall}
    {d : AgentDecision}
    (hd : env.decide (build_llm_messages s) = .ok d)
    (h : agent_decision_step_core env s = (.ok s', tr)) :
    dispatch_decision env d s = (.ok s', (dispatch_decision env d s).2) := by
  simp only [agent_decision_step_core, hd] at h
  rw [Prod.mk.injEq] at h
  obtain ⟨hfs, -⟩ := h
  rw [← hfs]

/-- A decision environment that always answers with a fixed decision. -/
def envOf (d : AgentDecision) : Env := { envFail with decide := fun _ => .ok d }

def respondDecision : AgentDecision :=
  { decision_type := "respond", message := some "Hello!" }

def sHi : AgentState := initial_state "hi"

def sHiResponded : AgentState :=
  { sHi with
    conversation_history := sHi.conversation_history ++
      [{ role := Role.assistant, content := "Hello!" }],
    awaiting_user_input := true }

/-- C3: a decision step whose `try:` body completes (`core` returns
`ok`) sets `awaiting_user_input` true when it dispatched a respond,
ask_question or analyze_companies action; entered with the flag false,
a search_tools, research_company or end dispatch leaves it false; and
an end dispatch sets `conversation_complete`. -/
theorem C3_awaiting_after_dispatch (env : Env) (s : AgentState) (d : AgentDecision)
    (s' : AgentState) (tr : List ExtCall)
    (hd : env.decide (build_llm_messages s) = .ok d)
    (h : agent_decision_step_core env s = (.ok s', tr)) :
    ((d.decision_type = "respond" ∨ d.decision_type = "ask_question" ∨
        d.decision_type = "analyze_companies") → s'.awaiting_user_input = true) ∧
    (s.awaiting_user_input = false →
      (d.decision_type = "search_tools" ∨ d.decision_type = "research_company" ∨
        d.decision_type = "end") → s'.awaiting_user_input = false) ∧
    (d.decision_type = "end" → s'.conversation_complete = true) := by
  have hdisp := core_ok_dispatch hd h
  refine ⟨fun hty => by rw [dispatch_ok_awaiting hdisp, if_pos hty], ?_,
    fun hty => by rw [dispatch_ok_complete hdisp, if_pos hty]⟩
  intro ha hty
  have hnc : ¬ (d.decision_type = "respond" ∨ d.decision_type = "ask_question" ∨
      d.decision_type = "analyze_companies") := by
    rcases hty with hcase | hcase | hcase <;> rw [hcase] <;> decide
  rw [dispatch_ok_awaiting hdisp, if_neg hnc]
  exact ha

/-- C3 witness: a respond decision on the fresh state leaves the step
awaiting user input. -/
theorem C3_awaiting_after_dispatch_witness :
    agent_decision_step_core (envOf respondDecision) sHi =
      (.ok sHiResponded, [ExtCall.llmDecision (build_llm_messages sHi)]) ∧
    sHiResponded.awaiting_user_input = true := by
  have h := C3_awaiting_after_dispatch (envOf respondDecision) sHi respondDecision
    sHiResponded [ExtCall.llmDecision (build_llm_messages sHi)] rfl rfl
  exact ⟨rfl, h.1 (Or.inl rfl)⟩

/-- C4 counterexample: the claim "awaiting_user_input is true only
immediately after a respond, ask_question, or analyze_companies
action, or at conversation start" is false on the code: when the
decision call raises, the `except` branch also sets the flag, so one
step from the fresh state (whose flag is false) with a failing
decision oracle ends awaiting input although no action was dispatched
at all. -/
theorem C4_counterexample :
    (agent_decision_step envFail sHi).1.awaiting_user_input = true ∧
    envFail.decide (build_llm_messages sHi) = .error () ∧
    sHi.awaiting_user_input = false :=
  ⟨rfl, rfl, rfl⟩

/-- C4 (amended): at conversation start the flag is false, and for a
step entered with the flag false, `awaiting_user_input` is true after
the step exactly when the step's body raised (exception recovery) or
the dispatched action was respond, ask_question or analyze_companies;
in every other case it stays false. -/
theorem C4_awaiting_positions (env : Env) (s : AgentState) (im : String) :
    (initial_state im).awaiting_user_input = false ∧
    (s.awaiting_user_input = false →
      ((agent_decision_step env s).1.awaiting_user_input = true ↔
        (∃ p tr, agent_decision_step_core env s = (.error p, tr)) ∨
        (∃ d s' tr, env.decide (build_llm_messages s) = .ok d ∧
          agent_decision_step_core env s = (.ok s', tr) ∧
          (d.decision_type = "respond" ∨ d.decision_type = "ask_question" ∨
            d.decision_type = "analyze_companies")))) := by
  refine ⟨rfl, fun ha => ⟨?_, ?_⟩⟩
  · intro hw
    cases hcore : agent_decision_step_core env s with
    | mk r tr =>
      cases r with
      | error p => exact Or.inl ⟨p, tr, rfl⟩
      | ok s' =>
        cases hdec : env.decide (build_llm_messages s) with
        | error e =>
          exfalso
          simp only [agent_decision_step_core, hdec] at hcore
          exact pair_err_ne_ok hcore
        | ok d =>
          have hdisp := core_ok_dispatch hdec hcore
          rw [step_of_core_ok hcore] at hw
          rw [dispatch_ok_awaiting hdisp] at hw
          by_cases hty : d.decision_type = "respond" ∨ d.decision_type = "ask_question" ∨
              d.decision_type = "analyze_companies"
          · exact Or.inr ⟨d, s', tr, rfl, rfl, hty⟩
          · rw [if_neg hty, ha] at hw
            exact absurd hw (by simp)
  · intro hcase
    rcases hcase with ⟨p, tr, hcore⟩ | ⟨d, s', tr, hdec, hcore, hty⟩
    · rw [step_of_core_err hcore]
      simp [err_apply]
    · rw [step_of_core_ok hcore]
      simp only
      rw [dispatch_ok_awaiting (core_ok_dispatch hdec hcore), if_pos hty]

/-- C4 witness: a respond decision from the fresh state makes the flag
true via the action disjunct of the characterization. -/
theorem C4_awaiting_positions_witness :
    (agent_decision_step (envOf respondDecision) sHi).1.awaiting_user_input = true := by
  exact ((C4_awaiting_positions (envOf respondDecision) sHi "hi").2 rfl).mpr
    (Or.inr ⟨respondDecision, sHiResponded,
      [ExtCall.llmDecision (build_llm_messages sHi)], rfl, rfl, Or.inl rfl⟩)

/-- C6: with an empty researched-companies list, the analyze tool
returns the literal sentinel and issues no external call at all (empty
trace), in particular no model call. -/
theorem C6_analyze_empty_sentinel (env : Env) (s : AgentState)
    (h : s.researched_companies = []) :
    tool_analyze_companies env s = (.ok "No companies researched yet.", []) := by
  unfold tool_analyze_companies
  rw [if_pos (by simp [h])]

/-- C6 witness: the fresh conversation state has nothing researched. -/
theorem C6_analyze_empty_sentinel_witness :
    tool_analyze_companies envFail sHi = (.ok "No companies researched yet.", []) :=
  C6_analyze_empty_sentinel envFail sHi rfl

def analyzeDecision : AgentDecision :=
  { decision_type := "analyze_companies",
    analyze_companies := some { reasoning := "compare" } }

/-- C10 (implicit): an analyze_companies decision dispatched on a state
with zero researched companies mutates the state exactly like a
successful analysis: `analysis` becomes the sentinel, a tool turn
"Analysis complete" and an assistant turn carrying the sentinel are
appended, and `awaiting_user_input` is set true; the only external
call is the decision call itself. -/
theorem C10_analyze_empty_dispatch (env : Env) (s : AgentState) (d : AgentDecision)
    (a : AnalyzeCompaniesCall)
    (hd : env.decide (build_llm_messages s) = .ok d)
    (hty : d.decision_type = "analyze_companies")
    (hp : d.analyze_companies = some a)
    (hre : s.researched_companies = []) :
    agent_decision_step env s =
      ({ s with
          analysis := some "No companies researched yet.",
          conversation_history := s.conversation_history ++
            [{ role := Role.tool, content := "Analysis complete" },
             { role := Role.assistant, content := "No companies researched yet." }],
          awaiting_user_input := true },
       [ExtCall.llmDecision (build_llm_messages s)]) := by
  have hta : tool_analyze_companies env s = (.ok "No companies researched yet.", []) := by
    unfold tool_analyze_companies
    rw [if_pos (by simp [hre])]
  have hdisp : dispatch_decision env d s =
      (.ok { s with
          analysis := some "No companies researched yet.",
          conversation_history := s.conversation_history ++
            [{ role := Role.tool, content := "Analysis complete" },
             { role := Role.assistant, content := "No companies researched yet." }],
          awaiting_user_input := true }, []) := by
    unfold dispatch_decision
    rw [if_neg (by rw [hty]; decide), if_neg (by rw [hty]; decide),
      if_neg (by rw [hty]; decide), if_pos hty, hp, hta]
  unfold agent_decision_step
  simp only [agent_decision_step_core, hd, hdisp]

/-- C10 witness: the concrete analyze decision on the fresh state. -/
theorem C10_analyze_empty_dispatch_witness :
    agent_decision_step (envOf analyzeDecision) sHi =
      ({ sHi with
          analysis := some "No companies researched yet.",
          conversation_history := sHi.conversation_history ++
            [{ role := Role.tool, content := "Analysis complete" },
             { role := Role.assistant, content := "No companies researched yet." }],
          awaiting_user_input := true },
       [ExtCall.llmDecision (build_llm_messages sHi)]) :=
  C10_analyze_empty_dispatch (envOf analyzeDecision) sHi analyzeDecision
    { reasoning := "compare" } rfl rfl rfl rfl

def researchDecision : AgentDecision :=
  { decision_type := "research_company",
    research_company := some { company_names := ["A", "B"], reasoning := "check" } }

/-- C5: a research_company decision over `["A", "B"]` where the
adapter round trip yields a usable record for "A"
(`tool_research_company` returns `some c`) and a miss for "B" (no
result or no URL: it returns `none`) appends exactly one researched
record — `c` for "A" — and exactly one tool-result turn reading
"Researched 1/2 companies: A, B". -/
theorem C5_research_one_of_two (env : Env) (s : AgentState) (d : AgentDecision)
    (r : String) (c : CompanyInfo) (trA trB : List ExtCall)
    (hd : env.decide (build_llm_messages s) = .ok d)
    (hty : d.decision_type = "research_company")
    (hp : d.research_company = some { company_names := ["A", "B"], reasoning := r })
    (hA : tool_research_company env "A" = (.ok (some c), trA))
    (hB : tool_research_company env "B" = (.ok none, trB)) :
    (agent_decision_step env s).1.researched_companies =
      s.researched_companies ++ [c] ∧
    (agent_decision_step env s).1.conversation_history =
      s.conversation_history ++
        [{ role := Role.tool, content := "Researched 1/2 companies: A, B" }] := by
  have hloop : research_loop env ["A", "B"] s 0 =
      (.ok ({ s with researched_companies := s.researched_companies ++ [c] }, 1),
       trA ++ (trB ++ [])) := by
    simp only [research_loop, hA, hB]
  have hmsg : ("Researched " ++ toString (1 : Nat) ++ "/" ++
      toString (["A", "B"] : List String).length ++ " companies: " ++
      String.intercalate ", " (["A", "B"] : List String)) =
      "Researched 1/2 companies: A, B" := rfl
  have hdisp : dispatch_decision env d s =
      (.ok { s with
          researched_companies := s.researched_companies ++ [c],
          conversation_history := s.conversation_history ++
            [{ role := Role.tool, content := "Researched 1/2 companies: A, B" }] },
       trA ++ (trB ++ [])) := by
    unfold dispatch_decision
    rw [if_neg (by rw [hty]; decide), if_neg (by rw [hty]; decide), if_pos hty, hp]
    simp only [hloop]
    rw [hmsg]
  have hstep : agent_decision_step env s =
      ({ s with
          researched_companies := s.researched_companies ++ [c],
          conversation_history := s.conversation_history ++
            [{ role := Role.tool, content := "Researched 1/2 companies: A, B" }] },
       ExtCall.llmDecision (build_llm_messages s) :: (trA ++ (trB ++ []))) := by
    unfold agent_decision_step
    simp only [agent_decision_step_core, hd, hdisp]
  rw [hstep]
  exact ⟨rfl, rfl⟩

def resA : SearchResult := { url := some "https://a.example" }

def envResearch : Env :=
  { decide := fun _ => .ok researchDecision,
    chatText := fun _ => .error (),
    chatAnalysis := fun _ => .error (),
    search_companies := fun q _ =>
      if q = "A official site" then .ok (some { web := some [resA] })
      else .ok (some { web := some [] }),
    scrape_company_pages := fun _ => .ok none }

def companyA : CompanyInfo :=
  { name := "A", description := "", website := "https://a.example",
    tech_stack := [], competitors := [] }

/-- C5 witness: a concrete adapter in which "A official site" yields a
URL and "B official site" yields an empty result list. -/
theorem C5_research_one_of_two_witness :
    (agent_decision_step envResearch sHi).1.researched_companies = [companyA] ∧
    (agent_decision_step envResearch sHi).1.conversation_history =
      sHi.conversation_history ++
        [{ role := Role.tool, content := "Researched 1/2 companies: A, B" }] := by
  have h := C5_research_one_of_two envResearch sHi researchDecision "check" companyA
    [ExtCall.searchCompanies "A official site" 1, ExtCall.scrapePage "https://a.example"]
    [ExtCall.searchCompanies "B official site" 1]
    rfl rfl rfl rfl rfl
  exact ⟨h.1, h.2⟩

/-- C7: if the model extraction completion inside a search_tools
action fails (raises) for every content, then whenever the action
completes normally it returns the empty candidate list, and a decision
step that dispatches such a search_tools action leaves the state's
`extracted_tools` list unchanged in length and content. -/
theorem C7_extraction_failure_empty (env : Env) (q : String) (n : Int)
    (hfail : ∀ content, env.chatText (extraction_messages q content) = .error ()) :
    (∀ (res : List String) (tr : List ExtCall),
      tool_search_tools env q n = (.ok res, tr) → res = []) ∧
    (∀ (s : AgentState) (d : AgentDecision) (args : SearchToolsCall)
       (s' : AgentState) (tr : List ExtCall),
      env.decide (build_llm_messages s) = .ok d →
      d.decision_type = "search_tools" →
      d.search_tools = some args →
      args.query = q → args.num_results = n →
      agent_decision_step_core env s = (.ok s', tr) →
      s'.extracted_tools = s.extracted_tools) := by
  have key : ∀ (res : List String) (tr : List ExtCall),
      tool_search_tools env q n = (.ok res, tr) → res = [] := by
    intro res tr h
    unfold tool_search_tools at h
    split at h
    · exact pair_err_ne_ok h
    · exact pair_err_ne_ok h
    · split at h
      · exact pair_err_ne_ok h
      · next all_content tr1 heq =>
        rw [hfail all_content] at h
        rw [Prod.mk.injEq] at h
        rw [Except.ok.injEq] at h
        obtain ⟨hfs, -⟩ := h
        exact hfs.symm
  refine ⟨key, ?_⟩
  intro s d args s' tr hd hty hp hq hn hcore
  have hdisp := core_ok_dispatch hd hcore
  unfold dispatch_decision at hdisp
  rw [if_neg (by rw [hty]; decide), if_pos hty, hp] at hdisp
  dsimp only at hdisp
  rw [hq, hn] at hdisp
  cases hts : tool_search_tools env q n with
  | mk r2 tr2 =>
    rw [hts] at hdisp
    cases r2 with
    | error e => exact pair_err_ne_ok hdisp
    | ok tools =>
      have htools := key tools tr2 hts
      subst htools
      rw [Prod.mk.injEq] at hdisp
      rw [Except.ok.injEq] at hdisp
      obtain ⟨hfs, -⟩ := hdisp
      rw [← hfs]
      simp

def searchDecision : AgentDecision :=
  { decision_type := "search_tools",
    search_tools := some { query := "database", num_results := 3, reasoning := "find" } }

/-- An adapter that finds no articles and whose model calls fail. -/
def envNoArticles : Env :=
  { decide := fun _ => .ok searchDecision,
    chatText := fun _ => .error (),
    chatAnalysis := fun _ => .error (),
    search_companies := fun _ _ => .ok (some { web := some [] }),
    scrape_company_pages := fun _ => .error () }

/-- The state after the witness search step: no candidates found. -/
def sHiSearched : AgentState :=
  { sHi with
    conversation_history := sHi.conversation_history ++
      [{ role := Role.tool, content := "Found tools: " }] }

/-- C7 witness: a search_tools step whose extraction call fails returns
no candidates and leaves `extracted_tools` untouched. -/
theorem C7_extraction_failure_empty_witness :
    (∀ (res : List String) (tr : List ExtCall),
      tool_search_tools envNoArticles "database" 3 = (.ok res, tr) → res = []) ∧
    (agent_decision_step_core envNoArticles sHi).1 = .ok sHiSearched ∧
    sHiSearched.extracted_tools = sHi.extracted_tools := by
  have h := C7_extraction_failure_empty envNoArticles "database" 3 (fun _ => rfl)
  refine ⟨h.1, rfl, ?_⟩
  exact h.2 sHi searchDecision
    { query := "database", num_results := 3, reasoning := "find" } sHiSearched
    [ExtCall.llmDecision (build_llm_messages sHi),
     ExtCall.searchCompanies (article_query "database") 3,
     ExtCall.llmText (extraction_messages "database" "")]
    rfl rfl rfl rfl rfl rfl

/-- C8 (code bug in the source): every search_tools action sends the
adapter exactly `article_query q`, the input query followed by a space
and the suffix the code actually contains — which is the misspelled
"tools comparision best alternatives", not the
"tools comparison best alternatives" announced by the comment directly
above `workflow.py:268` and by the spec.  Evaluated at the input
"react": the adapter receives
"react tools comparision best alternatives", which differs from the
claimed query. -/
theorem C8_search_query_sent :
    (∀ (env : Env) (q : String) (n : Int), ∃ rest,
      (tool_search_tools env q n).2 =
        ExtCall.searchCompanies (article_query q) n :: rest) ∧
    article_query "react" = "react tools comparision best alternatives" ∧
    "react tools comparision best alternatives" ≠
      "react tools comparison best alternatives" := by
  refine ⟨?_, rfl, by decide⟩
  intro env q n
  cases hs : env.search_companies (article_query q) n with
  | error e => exact ⟨[], by simp only [tool_search_tools, hs]⟩
  | ok o =>
    cases o with
    | none => exact ⟨[], by simp only [tool_search_tools, hs]⟩
    | some resp =>
      cases hc : collect_content env (resp.web.getD []) "" with
      | mk cres ctr =>
        cases cres with
        | error e =>
          exact ⟨ctr, by simp only [tool_search_tools, hs, hc]⟩
        | ok all_content =>
          cases ht : env.chatText (extraction_messages q all_content) with
          | error e =>
            exact ⟨ctr ++ [ExtCall.llmText (extraction_messages q all_content)],
              by simp only [tool_search_tools, hs, hc, ht, List.cons_append]⟩
          | ok response_content =>
            exact ⟨ctr ++ [ExtCall.llmText (extraction_messages q all_content)],
              by simp only [tool_search_tools, hs, hc, ht, List.cons_append]⟩

/-- The role mapping stated by the spec's round-trip property:
user→user, assistant→assistant, tool-result→system-level
"[Tool Result]" note. -/
def spec_role_map (m : Message) : ChatMessage :=
  match m.role with
  | Role.user => { role := "user", content := m.content }
  | Role.assistant => { role := "assistant", content := m.content }
  | Role.tool => { role := "system", content := "[Tool Result] " ++ m.content }

theorem foldl_spec_role_map (ms : List Message) (acc0 : List ChatMessage) :
    ms.foldl
      (fun acc msg =>
        match msg.role with
        | Role.user => acc ++ [{ role := "user", content := msg.content }]
        | Role.assistant => acc ++ [{ role := "assistant", content := msg.content }]
        | Role.tool =>
          acc ++ [{ role := "system", content := "[Tool Result] " ++ msg.content }])
      acc0 = acc0 ++ ms.map spec_role_map := by
  induction ms generalizing acc0 with
  | nil => simp
  | cons turn rest ih =>
    rw [List.foldl_cons, List.map_cons, ih]
    cases turn with
    | mk role content =>
      cases role <;> simp [spec_role_map]

/-- C9: for every conversation history, the rebuilt model input is the
fixed system prompt, then the history's turns in order mapped by
`spec_role_map` (user→user, assistant→assistant, tool-result→a
system-level message prefixed with "[Tool Result] "), then one
context-summary system message; the three trailing conjuncts pin the
mapping down turn by turn. -/
theorem C9_build_messages_roundtrip (s : AgentState) :
    build_llm_messages s =
      { role := "system", content := AGENT_SYSTEM_PROMPT } ::
        (s.conversation_history.map spec_role_map ++
          [{ role := "system",
             content := "Current Context:\n" ++ build_context_summary s }]) ∧
    (∀ c, spec_role_map { role := Role.user, content := c } =
      { role := "user", content := c }) ∧
    (∀ c, spec_role_map { role := Role.assistant, content := c } =
      { role := "assistant", content := c }) ∧
    (∀ c, spec_role_map { role := Role.tool, content := c } =
      { role := "system", content := "[Tool Result] " ++ c }) := by
  refine ⟨?_, fun c => rfl, fun c => rfl, fun c => rfl⟩
  simp only [build_llm_messages]
  rw [foldl_spec_role_map]
  simp

end DevToolsAgent
